import Mathlib

/-!
# Verification of the Athena confidence-scoring and allocation engine

Shallow embedding of the core logic of the Athena repository:

* `services/analysis/sentiment.go` — `ConfidenceWeights`, `ConfidenceInputs`,
  `ConfidenceScore`, `DefaultWeights`, `CalculateConfidence`;
* `services/engine/claude_recommender.go` — `MarketRegime`, `Recommendation`,
  `Config`, `DefaultConfig`, `Engine`, `NewEngine`, `detectMarketRegime`,
  `coreHoldings`, `calculateAllocation`, `GenerateRecommendations`.

Go `float64` values are modelled as exact rationals `ℚ` (all arithmetic in the
source is `+ - * /` and comparisons), Go `int64` as `ℤ`, Go maps
(`map[string]string`, `map[string]float64`) as association lists with the same
counting semantics, and database lookups that may be absent as `Option`-valued
parameters.  Formatted reasoning/breakdown strings are reproduced with
`toString` on rationals in place of Go `%.0f` formatting; no theorem below
depends on the text of those strings.
-/

namespace Athena

namespace analysis

/-- `ConfidenceWeights` from sentiment.go: weights for the four signal
components. -/
structure ConfidenceWeights where
  CreatorConsensus   : ℚ
  TechnicalAlignment : ℚ
  VolumeConfirmation : ℚ
  HistoricalAccuracy : ℚ
deriving DecidableEq

/-- `DefaultWeights` from sentiment.go: 0.30 / 0.30 / 0.20 / 0.20. -/
def DefaultWeights : ConfidenceWeights :=
  { CreatorConsensus := 3/10
    TechnicalAlignment := 3/10
    VolumeConfirmation := 1/5
    HistoricalAccuracy := 1/5 }

/-- `ConfidenceInputs` from sentiment.go.  The Go maps
`CreatorSentiments : map[string]string` and
`CreatorAccuracyRates : map[string]float64` are modelled as association
lists (Go map keys are unique; no theorem depends on key uniqueness). -/
structure ConfidenceInputs where
  Ticker               : String
  CreatorSentiments    : List (String × String)
  TechnicalSignals     : List String
  CurrentVolume        : ℤ
  AvgVolume            : ℤ
  CreatorAccuracyRates : List (String × ℚ)
deriving DecidableEq

/-- `ConfidenceScore` from sentiment.go. -/
structure ConfidenceScore where
  Overall            : ℚ
  CreatorConsensus   : ℚ
  TechnicalAlignment : ℚ
  VolumeConfirmation : ℚ
  HistoricalAccuracy : ℚ
  Direction          : String
  Breakdown          : String
deriving DecidableEq

/-- The breakdown string built at the end of `CalculateConfidence`
(Go: `fmt.Sprintf("Creator: %.0f%% | ...")`); `%.0f` float formatting is
abstracted to `toString` on the exact rational. -/
def mkBreakdown (c t v h : ℚ) : String :=
  "Creator: " ++ toString (c * 100) ++ "% | Technical: " ++ toString (t * 100) ++
  "% | Volume: " ++ toString (v * 100) ++ "% | History: " ++ toString (h * 100) ++ "%"

/-- Step 1 of `CalculateConfidence` (sentiment.go): the count of `"bullish"`
creator sentiments. -/
def bullishCount (inputs : ConfidenceInputs) : ℕ :=
  (inputs.CreatorSentiments.filter (fun p => p.2 == "bullish")).length

/-- Step 1 of `CalculateConfidence` (sentiment.go): the count of `"bearish"`
creator sentiments. -/
def bearishCount (inputs : ConfidenceInputs) : ℕ :=
  (inputs.CreatorSentiments.filter (fun p => p.2 == "bearish")).length

/-- Step 1 of `CalculateConfidence` (sentiment.go): `totalCreators :=
len(inputs.CreatorSentiments)`. -/
def totalCreators (inputs : ConfidenceInputs) : ℕ :=
  inputs.CreatorSentiments.length

/-- `score.Direction` as assigned in step 1 of `CalculateConfidence`:
initialised to `"neutral"`, overwritten only in the strict-majority
branches of the `totalCreators > 0` cascade. -/
def consensusDirection (inputs : ConfidenceInputs) : String :=
  if totalCreators inputs > 0 then
    if bullishCount inputs > bearishCount inputs then "bullish"
    else if bearishCount inputs > bullishCount inputs then "bearish"
    else "neutral"
  else "neutral"

/-- `score.CreatorConsensus` as assigned in step 1 of `CalculateConfidence`:
same cascade as `consensusDirection` (the Go code assigns both fields in
the same branches); `0.5` on a split vote, `0` (the zero value) when there
are no creators. -/
def creatorConsensusScore (inputs : ConfidenceInputs) : ℚ :=
  if totalCreators inputs > 0 then
    if bullishCount inputs > bearishCount inputs then
      (bullishCount inputs : ℚ) / (totalCreators inputs : ℚ)
    else if bearishCount inputs > bullishCount inputs then
      (bearishCount inputs : ℚ) / (totalCreators inputs : ℚ)
    else 1/2          -- Split sentiment = low confidence
  else 0

/-- Step 2 of `CalculateConfidence` (sentiment.go): the count of `"bullish"`
technical signals. -/
def bullishSignals (inputs : ConfidenceInputs) : ℕ :=
  (inputs.TechnicalSignals.filter (fun s => s == "bullish")).length

/-- Step 2 of `CalculateConfidence` (sentiment.go): the count of `"bearish"`
technical signals. -/
def bearishSignals (inputs : ConfidenceInputs) : ℕ :=
  (inputs.TechnicalSignals.filter (fun s => s == "bearish")).length

/-- Step 2 of `CalculateConfidence` (sentiment.go): `totalSignals :=
len(inputs.TechnicalSignals)`. -/
def totalSignals (inputs : ConfidenceInputs) : ℕ :=
  inputs.TechnicalSignals.length

/-- Step 2 of `CalculateConfidence` (sentiment.go): `score.TechnicalAlignment`,
the fraction of technical signals agreeing with the dominant direction. -/
def technicalAlignmentScore (inputs : ConfidenceInputs) : ℚ :=
  if totalSignals inputs > 0 then
    if consensusDirection inputs == "bullish" then
      (bullishSignals inputs : ℚ) / (totalSignals inputs : ℚ)
    else if consensusDirection inputs == "bearish" then
      (bearishSignals inputs : ℚ) / (totalSignals inputs : ℚ)
    else
      -- If direction is neutral, use the higher of the two
      if bullishSignals inputs > bearishSignals inputs then
        (bullishSignals inputs : ℚ) / (totalSignals inputs : ℚ)
      else (bearishSignals inputs : ℚ) / (totalSignals inputs : ℚ)
  else 0

/-- Step 3 of `CalculateConfidence` (sentiment.go): the Go local
`ratio := float64(inputs.CurrentVolume) / float64(inputs.AvgVolume)`. -/
def volumeRatio (inputs : ConfidenceInputs) : ℚ :=
  (inputs.CurrentVolume : ℚ) / (inputs.AvgVolume : ℚ)

/-- Step 3 of `CalculateConfidence` (sentiment.go): `score.VolumeConfirmation`,
current volume vs 20-day average (`0.5` default when `AvgVolume ≤ 0`). -/
def volumeConfirmationScore (inputs : ConfidenceInputs) : ℚ :=
  if inputs.AvgVolume > 0 then
    -- Normalize: >2x = 1.0, <0.5x = 0.0, linear between
    if volumeRatio inputs ≥ 2 then 1
    else if volumeRatio inputs ≤ 1/2 then 0
    else (volumeRatio inputs - 1/2) / (3/2)
  else 1/2            -- Default neutral

/-- Step 4 of `CalculateConfidence` (sentiment.go): `score.HistoricalAccuracy`,
the mean of the supplied creator accuracy rates (`0.5` default when empty). -/
def historicalAccuracyScore (inputs : ConfidenceInputs) : ℚ :=
  if inputs.CreatorAccuracyRates.length > 0 then
    (inputs.CreatorAccuracyRates.map Prod.snd).sum / (inputs.CreatorAccuracyRates.length : ℚ)
  else 1/2            -- Default for unknown creators

/-- `CalculateConfidence` from sentiment.go.  The Go function assigns the
component fields of `score` sequentially; the assignments are named by the
component definitions above and the weighted overall score is the final
assignment. -/
def CalculateConfidence (inputs : ConfidenceInputs) (weights : ConfidenceWeights) :
    ConfidenceScore :=
  { Overall :=
      creatorConsensusScore inputs * weights.CreatorConsensus +
      technicalAlignmentScore inputs * weights.TechnicalAlignment +
      volumeConfirmationScore inputs * weights.VolumeConfirmation +
      historicalAccuracyScore inputs * weights.HistoricalAccuracy
    CreatorConsensus := creatorConsensusScore inputs
    TechnicalAlignment := technicalAlignmentScore inputs
    VolumeConfirmation := volumeConfirmationScore inputs
    HistoricalAccuracy := historicalAccuracyScore inputs
    Direction := consensusDirection inputs
    Breakdown := mkBreakdown (creatorConsensusScore inputs) (technicalAlignmentScore inputs)
      (volumeConfirmationScore inputs) (historicalAccuracyScore inputs) }

end analysis

namespace engine

/-- `MarketRegime` from claude_recommender.go (Go: a string type with four
constants `calm` / `volatile` / `bullish` / `bearish`). -/
inductive MarketRegime where
  | calm
  | volatile
  | bullish
  | bearish
deriving DecidableEq

/-- `Recommendation` from claude_recommender.go. -/
structure Recommendation where
  Ticker          : String
  Action          : String
  Amount          : ℚ
  ConfidenceScore : ℚ
  Reasoning       : String
  MarketRegime    : MarketRegime
  VIXLevel        : ℚ
deriving DecidableEq

/-- `Config` from claude_recommender.go. -/
structure Config where
  VIXHighThreshold : ℚ
  RSIOverbought    : ℚ
  RSIOversold      : ℚ
deriving DecidableEq

/-- `DefaultConfig` from claude_recommender.go: 25.0 / 70.0 / 30.0. -/
def DefaultConfig : Config :=
  { VIXHighThreshold := 25
    RSIOverbought := 70
    RSIOversold := 30 }

/-- `Engine` from claude_recommender.go (the `db` handle is external I/O
and is not part of the embedded state). -/
structure Engine where
  vixHighThreshold : ℚ
  rsiOverbought    : ℚ
  rsiOversold      : ℚ
deriving DecidableEq

/-- `NewEngine` from claude_recommender.go.  The Go constructor copies the
three threshold fields and performs no validation and has no error return. -/
def NewEngine (cfg : Config) : Engine :=
  { vixHighThreshold := cfg.VIXHighThreshold
    rsiOverbought := cfg.RSIOverbought
    rsiOversold := cfg.RSIOversold }

/-- `detectMarketRegime` from claude_recommender.go.  The two database
lookups (latest VIX close, latest SPY RSI) are passed in as `Option ℚ`:
`none` models `sql.ErrNoRows` or a NULL value (`!vix.Valid`).  The Go code
sets `vixLevel := 0.0; if vix.Valid { vixLevel = vix.Float64 }`, then checks
`vixLevel > e.vixHighThreshold`, then the RSI thresholds when RSI is
present. -/
def detectMarketRegime (e : Engine) (vix spyRSI : Option ℚ) : MarketRegime × ℚ :=
  let vixLevel := vix.getD 0
  -- High VIX = volatile market
  if vixLevel > e.vixHighThreshold then (.volatile, vixLevel)
  else
    -- Check SPY RSI for trend
    match spyRSI with
    | some r =>
        if r > e.rsiOverbought then (.bearish, vixLevel)
        else if r < e.rsiOversold then (.bullish, vixLevel)
        else (.calm, vixLevel)
    | none => (.calm, vixLevel)

/-- `AllocationResult` from claude_recommender.go. -/
structure AllocationResult where
  Action    : String
  Amount    : ℚ
  Reasoning : String
deriving DecidableEq

/-- `coreHoldings` from claude_recommender.go: the static core allocation
table (Go: `map[string]float64`; the lookup `coreHoldings[ticker]` with its
`ok` flag is modelled as an `Option`). -/
def coreHoldings (ticker : String) : Option ℚ :=
  if ticker == "SPY" then some (2/5)        -- 40% of budget
  else if ticker == "QQQ" then some (3/10)  -- 30% of budget
  else if ticker == "VOO" then some (1/5)   -- 20% of budget
  else if ticker == "VTI" then some (1/10)  -- 10% of budget
  else none

/-- `calculateAllocation` from claude_recommender.go, translated branch by
branch (`%.0f%%` confidence formatting abstracted to `toString`). -/
def calculateAllocation (ticker : String) (score : analysis.ConfidenceScore)
    (budget : ℚ) (regime : MarketRegime) : AllocationResult :=
  match coreHoldings ticker with
  | none =>
      -- Risk allocation for non-core holdings
      if score.Overall < 3/5 then
        { Action := "wait"
          Amount := 0
          Reasoning := "Confidence too low (" ++ toString (score.Overall * 100) ++
            "%) for risk allocation" }
      else
        -- Allocate 10% of budget to risk positions with high confidence
        { Action := "buy"
          Amount := budget * (1/10)
          Reasoning := "Risk allocation approved (" ++ toString (score.Overall * 100) ++
            "% confidence)" }
  | some baseAllocation =>
      -- Core holding allocation
      let amount := budget * baseAllocation
      if score.Overall < 2/5 then
        -- Very low confidence - significantly reduce
        { Action := "buy"
          Amount := amount * (1/4)
          Reasoning := "Reduced allocation due to low confidence (" ++
            toString (score.Overall * 100) ++ "%)" }
      else if score.Overall < 3/5 then
        -- Moderate confidence - reduce by 50%
        { Action := "buy"
          Amount := amount * (1/2)
          Reasoning := "Reduced allocation due to moderate confidence (" ++
            toString (score.Overall * 100) ++ "%)" }
      else if regime = .bearish then
        -- Bearish market - reduce exposure
        { Action := "buy"
          Amount := amount * (3/4)
          Reasoning := "Bearish regime - conservative allocation (" ++
            toString (score.Overall * 100) ++ "% confidence)" }
      else if regime = .bullish ∧ score.Overall > 4/5 then
        -- Bullish market with high confidence - increase slightly
        let amount1 := amount * (11/10)
        let amount2 :=
          if amount1 > budget * baseAllocation * (6/5) then
            budget * baseAllocation * (6/5)  -- Cap at 120% of base
          else amount1
        { Action := "buy"
          Amount := amount2
          Reasoning := "Bullish regime with high confidence (" ++
            toString (score.Overall * 100) ++ "%) - increased allocation" }
      else
        -- Standard allocation
        { Action := "buy"
          Amount := amount
          Reasoning := "Standard allocation (" ++ toString (score.Overall * 100) ++
            "% confidence)" }

/-- The reasoning string of the volatile short-circuit recommendation in
`GenerateRecommendations` (Go: `fmt.Sprintf("High volatility detected
(VIX: %.2f). ...", vix)`). -/
def volatileReason (vix : ℚ) : String :=
  "High volatility detected (VIX: " ++ toString vix ++
  "). Wait 2-3 days for market to stabilize."

/-- `GenerateRecommendations` from claude_recommender.go.  Database-backed
collaborators are passed as plain values: `vix`/`spyRSI` feed
`detectMarketRegime`, `tickers` stands for `getTrackedTickers`, and `scores`
stands for `getTickerConfidenceScore` (`none` = the warn-and-skip path).
In the volatile branch the Go code returns one `Recommendation` whose
`Ticker`, `Amount` and `ConfidenceScore` fields keep their zero values. -/
def GenerateRecommendations (e : Engine) (vix spyRSI : Option ℚ)
    (tickers : List String) (scores : String → Option analysis.ConfidenceScore)
    (budget : ℚ) : List Recommendation :=
  let rv := detectMarketRegime e vix spyRSI
  let regime := rv.1
  let vixLevel := rv.2
  -- If high volatility, recommend holding cash
  if regime = .volatile then
    [{ Ticker := ""
       Action := "wait"
       Amount := 0
       ConfidenceScore := 0
       Reasoning := volatileReason vixLevel
       MarketRegime := regime
       VIXLevel := vixLevel }]
  else
    tickers.filterMap fun ticker =>
      match scores ticker with
      | none => none   -- Warning: could not get confidence score; skip
      | some score =>
          let allocation := calculateAllocation ticker score budget regime
          some { Ticker := ticker
                 Action := allocation.Action
                 Amount := allocation.Amount
                 ConfidenceScore := score.Overall
                 Reasoning := allocation.Reasoning
                 MarketRegime := regime
                 VIXLevel := vixLevel }

end engine

end Athena

/-! ## Theorems -/

namespace Athena

open analysis engine

/-- A count of filtered elements never exceeds the total, as a rational
division bound: `0 ≤ a/b ≤ 1` for naturals `a ≤ b`, `0 < b`. -/
lemma natDiv_mem_unit (a b : ℕ) (hab : a ≤ b) (hb : 0 < b) :
    0 ≤ (a : ℚ) / (b : ℚ) ∧ (a : ℚ) / (b : ℚ) ≤ 1 := by
  constructor
  · positivity
  · rw [div_le_one (by exact_mod_cast hb)]
    exact_mod_cast hab

/-- The creator-consensus component always lies in `[0,1]`. -/
lemma creatorConsensusScore_mem (inputs : ConfidenceInputs) :
    0 ≤ creatorConsensusScore inputs ∧ creatorConsensusScore inputs ≤ 1 := by
  unfold creatorConsensusScore
  split_ifs with h1 h2 h3
  · exact natDiv_mem_unit _ _ (List.length_filter_le _ _) h1
  · exact natDiv_mem_unit _ _ (List.length_filter_le _ _) h1
  · norm_num
  · norm_num

/-- The technical-alignment component always lies in `[0,1]`. -/
lemma technicalAlignmentScore_mem (inputs : ConfidenceInputs) :
    0 ≤ technicalAlignmentScore inputs ∧ technicalAlignmentScore inputs ≤ 1 := by
  unfold technicalAlignmentScore bullishSignals bearishSignals totalSignals
  split_ifs with h1 h2 h3 h4
  · exact natDiv_mem_unit _ _ (List.length_filter_le _ _) h1
  · exact natDiv_mem_unit _ _ (List.length_filter_le _ _) h1
  · exact natDiv_mem_unit _ _ (List.length_filter_le _ _) h1
  · exact natDiv_mem_unit _ _ (List.length_filter_le _ _) h1
  · norm_num

/-- The volume-confirmation component always lies in `[0,1]`. -/
lemma volumeConfirmationScore_mem (inputs : ConfidenceInputs) :
    0 ≤ volumeConfirmationScore inputs ∧ volumeConfirmationScore inputs ≤ 1 := by
  unfold volumeConfirmationScore
  split_ifs with h1 h2 h3
  · norm_num
  · norm_num
  · push_neg at h2 h3
    constructor <;> nlinarith
  · norm_num

/-- Sum of the second components of an association list whose values lie in
`[0,1]` is between `0` and the length. -/
lemma sum_snd_bounds (l : List (String × ℚ)) (h : ∀ p ∈ l, 0 ≤ p.2 ∧ p.2 ≤ 1) :
    0 ≤ (l.map Prod.snd).sum ∧ (l.map Prod.snd).sum ≤ (l.length : ℚ) := by
  induction l with
  | nil => simp
  | cons p t ih =>
    have hp := h p (List.mem_cons_self _ _)
    have ht := ih (fun q hq => h q (List.mem_cons_of_mem _ hq))
    simp only [List.map_cons, List.sum_cons, List.length_cons]
    push_cast
    constructor <;> linarith [hp.1, hp.2, ht.1, ht.2]

/-- The historical-accuracy component lies in `[0,1]` whenever every supplied
accuracy rate does. -/
lemma historicalAccuracyScore_mem (inputs : ConfidenceInputs)
    (hacc : ∀ p ∈ inputs.CreatorAccuracyRates, 0 ≤ p.2 ∧ p.2 ≤ 1) :
    0 ≤ historicalAccuracyScore inputs ∧ historicalAccuracyScore inputs ≤ 1 := by
  unfold historicalAccuracyScore
  split_ifs with h1
  · have hs := sum_snd_bounds _ hacc
    have hl : (0 : ℚ) < (inputs.CreatorAccuracyRates.length : ℚ) := by exact_mod_cast h1
    constructor
    · exact div_nonneg hs.1 (le_of_lt hl)
    · rw [div_le_one hl]
      exact hs.2
  · norm_num

/-- **C1 counterexample**: the claim demands `Overall ∈ [0,1]` for every
weight vector with non-negative fields summing to `1.0 ± 0.01`.  The weights
`(0.30, 0.30, 0.20, 0.205)` sum to `1.005` (within the tolerance), and on an
input whose four components are all `1` (one bullish creator, one bullish
signal, volume ratio `2`, accuracy `1`) `CalculateConfidence` returns
`Overall = 1.005 > 1`. -/
theorem C1_counterexample :
    (0 ≤ (3 : ℚ)/10 ∧ 0 ≤ (3 : ℚ)/10 ∧ 0 ≤ (1 : ℚ)/5 ∧ 0 ≤ (41 : ℚ)/200) ∧
    |(3/10 + 3/10 + 1/5 + 41/200 : ℚ) - 1| ≤ 1/100 ∧
    (0 ≤ (1 : ℚ) ∧ (1 : ℚ) ≤ 1) ∧
    (0 : ℤ) ≤ 2 ∧ (0 : ℤ) ≤ 1 ∧
    (CalculateConfidence
        ⟨"SPY", [("creator1", "bullish")], ["bullish"], 2, 1, [("creator1", 1)]⟩
        ⟨3/10, 3/10, 1/5, 41/200⟩).Overall > 1 := by
  refine ⟨by norm_num, by rw [abs_le]; constructor <;> norm_num, by norm_num,
    by norm_num, by norm_num, ?_⟩
  have hov : (CalculateConfidence
      ⟨"SPY", [("creator1", "bullish")], ["bullish"], 2, 1, [("creator1", 1)]⟩
      ⟨3/10, 3/10, 1/5, 41/200⟩).Overall = 201/200 := by
    norm_num +decide [CalculateConfidence, creatorConsensusScore, bullishCount,
      bearishCount, totalCreators, consensusDirection, technicalAlignmentScore,
      bullishSignals, bearishSignals, totalSignals, volumeConfirmationScore,
      volumeRatio, historicalAccuracyScore]
  rw [hov]
  norm_num

/-- **C1 (amended)**: for every `ConfidenceInputs` whose creator accuracy
ratios lie in `[0,1]` and every `ConfidenceWeights` with non-negative fields,
each of the four component sub-scores lies in `[0,1]` and
`0 ≤ Overall ≤ (sum of the weights)` — so `Overall ≤ 1.01` under the
`±0.01` tolerance, and `Overall ≤ 1` exactly when the weights sum to at
most `1`; no clamping is applied anywhere in the computation. -/
theorem C1_score_bounds (inputs : ConfidenceInputs) (weights : ConfidenceWeights)
    (hw1 : 0 ≤ weights.CreatorConsensus) (hw2 : 0 ≤ weights.TechnicalAlignment)
    (hw3 : 0 ≤ weights.VolumeConfirmation) (hw4 : 0 ≤ weights.HistoricalAccuracy)
    (hacc : ∀ p ∈ inputs.CreatorAccuracyRates, 0 ≤ p.2 ∧ p.2 ≤ 1) :
    (0 ≤ (CalculateConfidence inputs weights).CreatorConsensus ∧
      (CalculateConfidence inputs weights).CreatorConsensus ≤ 1) ∧
    (0 ≤ (CalculateConfidence inputs weights).TechnicalAlignment ∧
      (CalculateConfidence inputs weights).TechnicalAlignment ≤ 1) ∧
    (0 ≤ (CalculateConfidence inputs weights).VolumeConfirmation ∧
      (CalculateConfidence inputs weights).VolumeConfirmation ≤ 1) ∧
    (0 ≤ (CalculateConfidence inputs weights).HistoricalAccuracy ∧
      (CalculateConfidence inputs weights).HistoricalAccuracy ≤ 1) ∧
    0 ≤ (CalculateConfidence inputs weights).Overall ∧
    (CalculateConfidence inputs weights).Overall ≤
      weights.CreatorConsensus + weights.TechnicalAlignment +
      weights.VolumeConfirmation + weights.HistoricalAccuracy ∧
    (weights.CreatorConsensus + weights.TechnicalAlignment +
        weights.VolumeConfirmation + weights.HistoricalAccuracy ≤ 1 →
      (CalculateConfidence inputs weights).Overall ≤ 1) := by
  have hCC := creatorConsensusScore_mem inputs
  have hTA := technicalAlignmentScore_mem inputs
  have hVC := volumeConfirmationScore_mem inputs
  have hHA := historicalAccuracyScore_mem inputs hacc
  have hc : (CalculateConfidence inputs weights).CreatorConsensus =
      creatorConsensusScore inputs := rfl
  have ht : (CalculateConfidence inputs weights).TechnicalAlignment =
      technicalAlignmentScore inputs := rfl
  have hv : (CalculateConfidence inputs weights).VolumeConfirmation =
      volumeConfirmationScore inputs := rfl
  have hh : (CalculateConfidence inputs weights).HistoricalAccuracy =
      historicalAccuracyScore inputs := rfl
  have hov : (CalculateConfidence inputs weights).Overall =
      creatorConsensusScore inputs * weights.CreatorConsensus +
      technicalAlignmentScore inputs * weights.TechnicalAlignment +
      volumeConfirmationScore inputs * weights.VolumeConfirmation +
      historicalAccuracyScore inputs * weights.HistoricalAccuracy := rfl
  rw [hc, ht, hv, hh, hov]
  have h1 : creatorConsensusScore inputs * weights.CreatorConsensus ≤
      weights.CreatorConsensus := mul_le_of_le_one_left hw1 hCC.2
  have h2 : technicalAlignmentScore inputs * weights.TechnicalAlignment ≤
      weights.TechnicalAlignment := mul_le_of_le_one_left hw2 hTA.2
  have h3 : volumeConfirmationScore inputs * weights.VolumeConfirmation ≤
      weights.VolumeConfirmation := mul_le_of_le_one_left hw3 hVC.2
  have h4 : historicalAccuracyScore inputs * weights.HistoricalAccuracy ≤
      weights.HistoricalAccuracy := mul_le_of_le_one_left hw4 hHA.2
  have g1 : 0 ≤ creatorConsensusScore inputs * weights.CreatorConsensus :=
    mul_nonneg hCC.1 hw1
  have g2 : 0 ≤ technicalAlignmentScore inputs * weights.TechnicalAlignment :=
    mul_nonneg hTA.1 hw2
  have g3 : 0 ≤ volumeConfirmationScore inputs * weights.VolumeConfirmation :=
    mul_nonneg hVC.1 hw3
  have g4 : 0 ≤ historicalAccuracyScore inputs * weights.HistoricalAccuracy :=
    mul_nonneg hHA.1 hw4
  exact ⟨hCC, hTA, hVC, hHA, by linarith, by linarith, fun hs => by linarith⟩

/-- Witness for C1 (amended): for the default weights (which sum to exactly
`1`) and an input with one fully-accurate bullish creator, all components and
the overall score are within their bounds; in particular `Overall ≤ 1`. -/
theorem C1_witness :
    0 ≤ (CalculateConfidence
        ⟨"SPY", [("creator1", "bullish")], ["bullish"], 2, 1, [("creator1", 1)]⟩
        DefaultWeights).Overall ∧
    (CalculateConfidence
        ⟨"SPY", [("creator1", "bullish")], ["bullish"], 2, 1, [("creator1", 1)]⟩
        DefaultWeights).Overall ≤ 1 := by
  have h := C1_score_bounds
    ⟨"SPY", [("creator1", "bullish")], ["bullish"], 2, 1, [("creator1", 1)]⟩
    DefaultWeights (by norm_num [DefaultWeights]) (by norm_num [DefaultWeights])
    (by norm_num [DefaultWeights]) (by norm_num [DefaultWeights]) (by norm_num)
  exact ⟨h.2.2.2.2.1, h.2.2.2.2.2.2 (by norm_num [DefaultWeights])⟩

/-- **C6**: for every `ConfidenceInputs` with at least one creator sentiment
and equal bullish and bearish creator counts (including both counts zero,
i.e. all creators neutral), `CalculateConfidence` returns
`Direction = "neutral"` and `CreatorConsensus = 0.5`; the tie is never
resolved to one side. -/
theorem C6_consensus_tie_neutral (inputs : ConfidenceInputs) (weights : ConfidenceWeights)
    (h0 : 0 < inputs.CreatorSentiments.length)
    (htie : bullishCount inputs = bearishCount inputs) :
    (CalculateConfidence inputs weights).Direction = "neutral" ∧
    (CalculateConfidence inputs weights).CreatorConsensus = 1/2 := by
  have hlt : ¬ bullishCount inputs > bearishCount inputs := by omega
  have hlt2 : ¬ bearishCount inputs > bullishCount inputs := by omega
  constructor
  · show consensusDirection inputs = "neutral"
    unfold consensusDirection totalCreators
    simp [h0, hlt, hlt2]
  · show creatorConsensusScore inputs = 1/2
    unfold creatorConsensusScore totalCreators
    simp [h0, hlt, hlt2]

/-- Witness for C6: a single neutral creator is a bullish/bearish tie with a
positive creator count, and yields direction `"neutral"`, consensus `1/2`. -/
theorem C6_witness :
    (CalculateConfidence ⟨"SPY", [("creator1", "neutral")], [], 0, 0, []⟩
        DefaultWeights).Direction = "neutral" ∧
    (CalculateConfidence ⟨"SPY", [("creator1", "neutral")], [], 0, 0, []⟩
        DefaultWeights).CreatorConsensus = 1/2 :=
  C6_consensus_tie_neutral _ _ (by decide) (by decide)

/-- **C7**: the `VolumeConfirmation` component of `CalculateConfidence` equals
`0.5` whenever `AvgVolume` is zero; otherwise, with
`ratio = CurrentVolume / AvgVolume`, it equals `1` when `ratio ≥ 2`, `0` when
`ratio ≤ 1/2`, `(ratio - 1/2) / (3/2)` strictly in between, and in particular
`CurrentVolume = AvgVolume` (ratio `1`) gives exactly `1/3`. -/
theorem C7_volume_confirmation (inputs : ConfidenceInputs) (weights : ConfidenceWeights) :
    (inputs.AvgVolume = 0 →
      (CalculateConfidence inputs weights).VolumeConfirmation = 1/2) ∧
    (0 < inputs.AvgVolume →
      ((inputs.CurrentVolume : ℚ) / (inputs.AvgVolume : ℚ) ≥ 2 →
        (CalculateConfidence inputs weights).VolumeConfirmation = 1) ∧
      ((inputs.CurrentVolume : ℚ) / (inputs.AvgVolume : ℚ) ≤ 1/2 →
        (CalculateConfidence inputs weights).VolumeConfirmation = 0) ∧
      (1/2 < (inputs.CurrentVolume : ℚ) / (inputs.AvgVolume : ℚ) →
        (inputs.CurrentVolume : ℚ) / (inputs.AvgVolume : ℚ) < 2 →
        (CalculateConfidence inputs weights).VolumeConfirmation =
          ((inputs.CurrentVolume : ℚ) / (inputs.AvgVolume : ℚ) - 1/2) / (3/2)) ∧
      (inputs.CurrentVolume = inputs.AvgVolume →
        (CalculateConfidence inputs weights).VolumeConfirmation = 1/3)) := by
  have hvc : (CalculateConfidence inputs weights).VolumeConfirmation =
      volumeConfirmationScore inputs := rfl
  rw [hvc]
  unfold volumeConfirmationScore volumeRatio
  constructor
  · intro hz
    simp [hz]
  · intro hpos
    have hposQ : (0 : ℚ) < (inputs.AvgVolume : ℚ) := by exact_mod_cast hpos
    rw [if_pos hpos]
    refine ⟨?_, ?_, ?_, ?_⟩
    · intro h2
      rw [if_pos h2]
    · intro h2
      have hn2 : ¬ ((inputs.CurrentVolume : ℚ) / (inputs.AvgVolume : ℚ) ≥ 2) := by
        intro hc; linarith
      rw [if_neg hn2, if_pos h2]
    · intro hlo hhi
      have hn2 : ¬ ((inputs.CurrentVolume : ℚ) / (inputs.AvgVolume : ℚ) ≥ 2) := by
        intro hc; linarith
      have hn3 : ¬ ((inputs.CurrentVolume : ℚ) / (inputs.AvgVolume : ℚ) ≤ 1/2) := by
        intro hc; linarith
      rw [if_neg hn2, if_neg hn3]
    · intro heq
      have hone : (inputs.CurrentVolume : ℚ) / (inputs.AvgVolume : ℚ) = 1 := by
        rw [heq]
        exact div_self (ne_of_gt hposQ)
      rw [hone]
      norm_num

/-- Witness for C7: `CurrentVolume = AvgVolume = 2` gives volume confirmation
exactly `1/3`. -/
theorem C7_witness :
    (CalculateConfidence ⟨"SPY", [], [], 2, 2, []⟩ DefaultWeights).VolumeConfirmation
      = 1/3 :=
  ((C7_volume_confirmation ⟨"SPY", [], [], 2, 2, []⟩ DefaultWeights).2
    (by decide)).2.2.2 rfl

/-- The only actions `calculateAllocation` writes are `"buy"` and `"wait"`;
this records that the two string literals differ. -/
lemma buy_ne_wait : ("buy" : String) ≠ "wait" := by decide

/-- The core-holdings table only contains the four fractions
`0.40 / 0.30 / 0.20 / 0.10`. -/
lemma coreHoldings_cases (t : String) (f : ℚ) (h : coreHoldings t = some f) :
    f = 2/5 ∨ f = 3/10 ∨ f = 1/5 ∨ f = 1/10 := by
  unfold coreHoldings at h
  split_ifs at h <;> simp_all

/-- **C2**: for every core ticker, budget `≥ 0` and regime,
`calculateAllocation` applies exactly one tier to `base = budget × fraction`,
first match wins: `Overall < 0.4 ⇒ base × 0.25`;
`0.4 ≤ Overall < 0.6 ⇒ base × 0.5`; else bearish regime `⇒ base × 0.75`;
else bullish regime and `Overall > 0.8 ⇒ base × 1.1` capped at `base × 1.2`
(the cap never binds for a non-negative base); otherwise `base` unchanged.
Since the second tier requires `¬(Overall < 0.4)`, a score of exactly `0.4`
is not the severe tier while `0.3999` is, and likewise the `0.6` and `0.8`
bounds are strict exactly as written; every core branch returns
action `"buy"`. -/
theorem C2_core_tier_ladder (ticker : String) (f : ℚ) (score : ConfidenceScore)
    (budget : ℚ) (regime : MarketRegime)
    (hcore : coreHoldings ticker = some f) (hb : 0 ≤ budget) :
    (calculateAllocation ticker score budget regime).Action = "buy" ∧
    (calculateAllocation ticker score budget regime).Amount =
      (if score.Overall < 2/5 then budget * f * (1/4)
       else if 2/5 ≤ score.Overall ∧ score.Overall < 3/5 then budget * f * (1/2)
       else if regime = .bearish then budget * f * (3/4)
       else if regime = .bullish ∧ score.Overall > 4/5 then
         min (budget * f * (11/10)) (budget * f * (6/5))
       else budget * f) ∧
    min (budget * f * (11/10)) (budget * f * (6/5)) = budget * f * (11/10) := by
  have hf0 : 0 ≤ f := by
    rcases coreHoldings_cases ticker f hcore with h | h | h | h <;> rw [h] <;> norm_num
  have hbf : 0 ≤ budget * f := mul_nonneg hb hf0
  have hmin : min (budget * f * (11/10)) (budget * f * (6/5)) = budget * f * (11/10) := by
    apply min_eq_left
    nlinarith
  refine ⟨?_, ?_, hmin⟩
  · simp only [calculateAllocation, hcore]
    split_ifs <;> rfl
  · simp only [calculateAllocation, hcore]
    rw [hmin]
    split_ifs with h1 h2 h3 h4 h5 <;>
      first
        | rfl
        | (exfalso; push_neg at *; first | linarith [h2.1, h2.2] | tauto)
        | (exfalso; nlinarith)
        | (exact absurd ⟨le_of_not_lt h1, h2⟩ ‹¬ (2/5 ≤ score.Overall ∧ score.Overall < 3/5)›)

/-- Witness for C2: SPY (base fraction `0.40`), budget `1000`, score `0.85`,
bullish regime ⇒ buy `1000 × 0.40 × 1.1 = 440` (the `1.2×` cap at `480`
does not bind). -/
theorem C2_witness :
    (calculateAllocation "SPY" ⟨17/20, 0, 0, 0, 0, "neutral", ""⟩ 1000 .bullish).Action
      = "buy" ∧
    (calculateAllocation "SPY" ⟨17/20, 0, 0, 0, 0, "neutral", ""⟩ 1000 .bullish).Amount
      = 440 := by
  have h := C2_core_tier_ladder "SPY" (2/5) ⟨17/20, 0, 0, 0, 0, "neutral", ""⟩
    1000 .bullish rfl (by norm_num)
  refine ⟨h.1, ?_⟩
  rw [h.2.1, h.2.2]
  rw [if_neg (by norm_num), if_neg (by norm_num), if_neg (by decide),
    if_pos ⟨rfl, by norm_num⟩]
  norm_num

/-- **C3**: for every ticker outside the core-holdings table, every budget
`≥ 0` and every regime, `calculateAllocation` returns action `"wait"` with
amount `0` when `Overall < 0.6`, and action `"buy"` with amount exactly
`budget × 0.10` when `Overall ≥ 0.6`, independent of the regime (which is
universally quantified here) and of how far the score exceeds `0.6`. -/
theorem C3_satellite_gate (ticker : String) (score : ConfidenceScore)
    (budget : ℚ) (regime : MarketRegime)
    (hsat : coreHoldings ticker = none) (hb : 0 ≤ budget) :
    (score.Overall < 3/5 →
      (calculateAllocation ticker score budget regime).Action = "wait" ∧
      (calculateAllocation ticker score budget regime).Amount = 0) ∧
    (3/5 ≤ score.Overall →
      (calculateAllocation ticker score budget regime).Action = "buy" ∧
      (calculateAllocation ticker score budget regime).Amount = budget * (1/10)) := by
  simp only [calculateAllocation, hsat]
  constructor
  · intro h
    rw [if_pos h]
    exact ⟨rfl, rfl⟩
  · intro h
    rw [if_neg (not_lt.mpr h)]
    exact ⟨rfl, rfl⟩

/-- Witness for C3: PLTR is not a core holding; with score `0.50` and budget
`1000` the result is wait/`0`, and with score `0.60` it is buy/`100`. -/
theorem C3_witness :
    ((calculateAllocation "PLTR" ⟨1/2, 0, 0, 0, 0, "neutral", ""⟩ 1000 .calm).Action
        = "wait" ∧
      (calculateAllocation "PLTR" ⟨1/2, 0, 0, 0, 0, "neutral", ""⟩ 1000 .calm).Amount
        = 0) ∧
    ((calculateAllocation "PLTR" ⟨3/5, 0, 0, 0, 0, "neutral", ""⟩ 1000 .calm).Action
        = "buy" ∧
      (calculateAllocation "PLTR" ⟨3/5, 0, 0, 0, 0, "neutral", ""⟩ 1000 .calm).Amount
        = 1000 * (1/10)) :=
  ⟨(C3_satellite_gate "PLTR" ⟨1/2, 0, 0, 0, 0, "neutral", ""⟩ 1000 .calm
      rfl (by norm_num)).1 (by norm_num),
   (C3_satellite_gate "PLTR" ⟨3/5, 0, 0, 0, 0, "neutral", ""⟩ 1000 .calm
      rfl (by norm_num)).2 (by norm_num)⟩

/-- **C8**: for every allocation produced by `calculateAllocation` (any
ticker, any confidence score, any regime, budget `≥ 0`), the returned amount
satisfies `0 ≤ amount ≤ budget`, and action `"wait"` implies amount `0`. -/
theorem C8_allocation_bounds (ticker : String) (score : ConfidenceScore)
    (budget : ℚ) (regime : MarketRegime) (hb : 0 ≤ budget) :
    0 ≤ (calculateAllocation ticker score budget regime).Amount ∧
    (calculateAllocation ticker score budget regime).Amount ≤ budget ∧
    ((calculateAllocation ticker score budget regime).Action = "wait" →
      (calculateAllocation ticker score budget regime).Amount = 0) := by
  cases hc : coreHoldings ticker with
  | none =>
    simp only [calculateAllocation, hc]
    split_ifs with h1
    · exact ⟨le_refl 0, hb, fun _ => rfl⟩
    · exact ⟨by nlinarith, by nlinarith, fun h => absurd h buy_ne_wait⟩
  | some f =>
    have hf0 : 0 ≤ f := by
      rcases coreHoldings_cases ticker f hc with h | h | h | h <;> rw [h] <;> norm_num
    have hf1 : f ≤ 2/5 := by
      rcases coreHoldings_cases ticker f hc with h | h | h | h <;> rw [h] <;> norm_num
    have hbf : 0 ≤ budget * f := mul_nonneg hb hf0
    have hbf1 : budget * f ≤ budget * (2/5) := by nlinarith
    simp only [calculateAllocation, hc]
    split_ifs with h1 h2 h3 h4 h5 <;>
      refine ⟨?_, ?_, fun h => absurd h buy_ne_wait⟩ <;> dsimp only <;> nlinarith

/-- Witness for C8: the SPY standard allocation at budget `1000` and score
`0.7` in a calm regime is within `[0, 1000]` and is not a wait. -/
theorem C8_witness :
    0 ≤ (calculateAllocation "SPY" ⟨7/10, 0, 0, 0, 0, "neutral", ""⟩ 1000 .calm).Amount ∧
    (calculateAllocation "SPY" ⟨7/10, 0, 0, 0, 0, "neutral", ""⟩ 1000 .calm).Amount
      ≤ 1000 :=
  ⟨(C8_allocation_bounds "SPY" ⟨7/10, 0, 0, 0, 0, "neutral", ""⟩ 1000 .calm
      (by norm_num)).1,
   (C8_allocation_bounds "SPY" ⟨7/10, 0, 0, 0, 0, "neutral", ""⟩ 1000 .calm
      (by norm_num)).2.1⟩

/-- **C10**: the allocator never produces the action `"hold"`: every result
of `calculateAllocation` carries action `"buy"` or `"wait"`, and every
recommendation emitted by `GenerateRecommendations` — including the volatile
short-circuit one — carries action `"buy"` or `"wait"`, although the
`Recommendation.Action` field ranges over strings including `"hold"`. -/
theorem C10_no_hold :
    (∀ (ticker : String) (score : ConfidenceScore) (budget : ℚ)
      (regime : MarketRegime),
      (calculateAllocation ticker score budget regime).Action = "buy" ∨
      (calculateAllocation ticker score budget regime).Action = "wait") ∧
    (∀ (e : Engine) (vix spyRSI : Option ℚ) (tickers : List String)
      (scores : String → Option analysis.ConfidenceScore) (budget : ℚ),
      ∀ r ∈ GenerateRecommendations e vix spyRSI tickers scores budget,
        r.Action = "buy" ∨ r.Action = "wait") := by
  have halloc : ∀ (ticker : String) (score : ConfidenceScore) (budget : ℚ)
      (regime : MarketRegime),
      (calculateAllocation ticker score budget regime).Action = "buy" ∨
      (calculateAllocation ticker score budget regime).Action = "wait" := by
    intro t s b rg
    cases hc : coreHoldings t with
    | none =>
      simp only [calculateAllocation, hc]
      split_ifs
      · exact Or.inr rfl
      · exact Or.inl rfl
    | some f =>
      simp only [calculateAllocation, hc]
      split_ifs <;> exact Or.inl rfl
  refine ⟨halloc, ?_⟩
  intro e vix spyRSI tickers scores budget r hr
  simp only [GenerateRecommendations] at hr
  split_ifs at hr with hreg
  · rw [List.mem_singleton] at hr
    subst hr
    exact Or.inr rfl
  · rw [List.mem_filterMap] at hr
    obtain ⟨t, _, hmap⟩ := hr
    cases hsc : scores t with
    | none => rw [hsc] at hmap; exact absurd hmap (by simp)
    | some s =>
      rw [hsc] at hmap
      simp only [Option.some.injEq] at hmap
      subst hmap
      exact halloc t s budget _

/-- Witness for C10: in the volatile short-circuit the single emitted
recommendation carries action `"wait"`. -/
theorem C10_witness :
    (Recommendation.mk "" "wait" 0 0 (volatileReason 30) .volatile 30).Action = "buy" ∨
    (Recommendation.mk "" "wait" 0 0 (volatileReason 30) .volatile 30).Action = "wait" := by
  have hdet : detectMarketRegime (NewEngine DefaultConfig) (some 30) none
      = (.volatile, 30) := by
    unfold detectMarketRegime NewEngine DefaultConfig
    norm_num
  have hgen : GenerateRecommendations (NewEngine DefaultConfig) (some 30) none
      ["SPY"] (fun _ => none) 1000 =
      [Recommendation.mk "" "wait" 0 0 (volatileReason 30) .volatile 30] := by
    unfold GenerateRecommendations
    rw [hdet]
    rfl
  exact C10_no_hold.2 (NewEngine DefaultConfig) (some 30) none ["SPY"]
    (fun _ => none) 1000 _ (hgen ▸ List.mem_singleton.mpr rfl)

/-- **C4**: whenever the detected market regime is volatile,
`GenerateRecommendations` returns exactly one `Recommendation` — action
`"wait"`, amount `0`, the detected VIX level recorded — and performs no
per-ticker confidence computation: the output does not depend on the ticker
list or on the per-ticker score lookup at all. -/
theorem C4_volatile_short_circuit (e : Engine) (vix spyRSI : Option ℚ)
    (tickers : List String) (scores : String → Option analysis.ConfidenceScore)
    (budget : ℚ) (v : ℚ)
    (h : detectMarketRegime e vix spyRSI = (.volatile, v)) :
    GenerateRecommendations e vix spyRSI tickers scores budget =
      [{ Ticker := "", Action := "wait", Amount := 0, ConfidenceScore := 0,
         Reasoning := volatileReason v, MarketRegime := .volatile, VIXLevel := v }] ∧
    (GenerateRecommendations e vix spyRSI tickers scores budget).length = 1 ∧
    (∀ (tickers2 : List String) (scores2 : String → Option analysis.ConfidenceScore),
      GenerateRecommendations e vix spyRSI tickers2 scores2 budget =
        GenerateRecommendations e vix spyRSI tickers scores budget) := by
  have hmain : ∀ (ts : List String) (sc : String → Option analysis.ConfidenceScore),
      GenerateRecommendations e vix spyRSI ts sc budget =
      [{ Ticker := "", Action := "wait", Amount := 0, ConfidenceScore := 0,
         Reasoning := volatileReason v, MarketRegime := .volatile,
         VIXLevel := v }] := by
    intro ts sc
    unfold GenerateRecommendations
    rw [h]
    rfl
  exact ⟨hmain tickers scores,
    by rw [hmain tickers scores]; rfl,
    fun ts2 sc2 => by rw [hmain ts2 sc2, hmain tickers scores]⟩

/-- Witness for C4: with the default thresholds and VIX `30 > 25` the regime
is volatile and the output is exactly the single wait recommendation, for a
two-ticker universe. -/
theorem C4_witness :
    GenerateRecommendations (NewEngine DefaultConfig) (some 30) none
        ["SPY", "QQQ"] (fun _ => none) 1000 =
      [{ Ticker := "", Action := "wait", Amount := 0, ConfidenceScore := 0,
         Reasoning := volatileReason 30, MarketRegime := .volatile,
         VIXLevel := 30 }] :=
  (C4_volatile_short_circuit (NewEngine DefaultConfig) (some 30) none
    ["SPY", "QQQ"] (fun _ => none) 1000 30
    (by unfold detectMarketRegime NewEngine DefaultConfig; norm_num)).1

/-- **C5 counterexample**: the claim says a missing VIX yields regime calm
regardless of the SPY RSI.  With the default thresholds, a missing VIX and
SPY RSI `80`, `detectMarketRegime` returns `bearish` (the code only defaults
`vixLevel` to `0` and then still runs the RSI checks), not `calm`. -/
theorem C5_counterexample :
    detectMarketRegime (NewEngine DefaultConfig) none (some 80)
      = (.bearish, 0) ∧ MarketRegime.bearish ≠ .calm := by
  constructor
  · unfold detectMarketRegime NewEngine DefaultConfig
    norm_num
  · decide

/-- **C5 (amended)**: regime detection is a first-match cascade over
`vixLevel := VIX` when present and `0` when missing (missing VIX does NOT
force calm; it only zeroes `vixLevel`, and the RSI checks still run):
`vixLevel >` high threshold ⇒ volatile regardless of RSI; else RSI missing ⇒
calm; else RSI `>` overbought ⇒ bearish; else RSI `<` oversold ⇒ bullish;
otherwise calm.  The returned VIX level is always `vixLevel`. -/
theorem C5_regime_order (e : Engine) (vix spyRSI : Option ℚ) :
    (detectMarketRegime e vix spyRSI).2 = vix.getD 0 ∧
    (vix.getD 0 > e.vixHighThreshold →
      (detectMarketRegime e vix spyRSI).1 = .volatile) ∧
    (vix.getD 0 ≤ e.vixHighThreshold →
      (spyRSI = none → (detectMarketRegime e vix spyRSI).1 = .calm) ∧
      (∀ r, spyRSI = some r →
        (r > e.rsiOverbought → (detectMarketRegime e vix spyRSI).1 = .bearish) ∧
        (r ≤ e.rsiOverbought → r < e.rsiOversold →
          (detectMarketRegime e vix spyRSI).1 = .bullish) ∧
        (r ≤ e.rsiOverbought → e.rsiOversold ≤ r →
          (detectMarketRegime e vix spyRSI).1 = .calm))) := by
  rcases spyRSI with _ | r <;> unfold detectMarketRegime <;>
    by_cases hv : vix.getD 0 > e.vixHighThreshold
  · rw [if_pos hv]
    exact ⟨rfl, fun _ => rfl, fun hle => absurd hv (not_lt.mpr hle)⟩
  · rw [if_neg hv]
    dsimp only
    exact ⟨rfl, fun hgt => absurd hgt hv,
      fun _ => ⟨fun _ => rfl, fun r hr => Option.noConfusion hr⟩⟩
  · rw [if_pos hv]
    exact ⟨rfl, fun _ => rfl, fun hle => absurd hv (not_lt.mpr hle)⟩
  · rw [if_neg hv]
    dsimp only
    refine ⟨?_, fun hgt => absurd hgt hv,
      fun _ => ⟨fun hn => Option.noConfusion hn, ?_⟩⟩
    · split_ifs <;> rfl
    · intro r2 hr2
      rw [Option.some.injEq] at hr2
      subst hr2
      refine ⟨fun hov => ?_, fun hno hos => ?_, fun hno hos => ?_⟩
      · rw [if_pos hov]
      · rw [if_neg (not_lt.mpr hno), if_pos hos]
      · rw [if_neg (not_lt.mpr hno), if_neg (not_lt.mpr hos)]

/-- Witness for C5 (amended): default thresholds, VIX present at `10 ≤ 25`,
SPY RSI `80 > 70` ⇒ bearish. -/
theorem C5_witness :
    (detectMarketRegime (NewEngine DefaultConfig) (some 10) (some 80)).1
      = .bearish := by
  have h := (C5_regime_order (NewEngine DefaultConfig) (some 10) (some 80)).2.2
  exact ((h (by norm_num [NewEngine, DefaultConfig, Option.getD_some])).2 80 rfl).1
    (by norm_num [NewEngine, DefaultConfig])

/-- **C9 counterexample**: the claim says an engine with negative thresholds
can never exist because construction rejects them fatally.  `NewEngine` has
no error path and performs no validation: constructing from the config with
all three thresholds `-1` succeeds and yields an engine carrying exactly
those negative thresholds. -/
theorem C9_counterexample :
    (NewEngine ⟨-1, -1, -1⟩).vixHighThreshold = -1 ∧
    (NewEngine ⟨-1, -1, -1⟩).rsiOverbought = -1 ∧
    (NewEngine ⟨-1, -1, -1⟩).rsiOversold = -1 :=
  ⟨rfl, rfl, rfl⟩

/-- **C9 (amended)**: engine construction performs no validation and never
fails: `NewEngine` accepts every configuration — including negative
thresholds — and stores it verbatim.  The confidence weights are not part of
the engine configuration at all: they are the fixed `DefaultWeights`
constant, whose fields sum to exactly `1.0`. -/
theorem C9_no_validation (cfg : Config) :
    NewEngine cfg = { vixHighThreshold := cfg.VIXHighThreshold,
                      rsiOverbought := cfg.RSIOverbought,
                      rsiOversold := cfg.RSIOversold } ∧
    DefaultWeights.CreatorConsensus + DefaultWeights.TechnicalAlignment +
      DefaultWeights.VolumeConfirmation + DefaultWeights.HistoricalAccuracy = 1 :=
  ⟨rfl, by norm_num [DefaultWeights]⟩

end Athena
